import Mathlib

/-!
Verification of the puff air-quality monitor (`src/main.py`).

Shallow embedding conventions:
* Python floats are modelled as `ℚ` (all arithmetic in the claims is exact
  decimal arithmetic: sums, divisions by 10 and 5, multiplications).
* Sensor bytes are modelled as `ℕ` values; timestamps as `ℕ`.
* The SQLite-backed stores are modelled as Lean lists ordered by insertion
  (auto-increment id order); `ORDER BY id DESC LIMIT 1` is `List.getLast?`.
* Code that catches a persistence-layer exception is modelled by a function
  from the storage outcome `Except StorageError α` to the operation's result.
-/

namespace Puff

/-- A calibrated (or, as the code actually stores them, raw) sample in the
`sensor_readings` table: `insert_reading` writes `(pm25, pm10, timestamp)`. -/
structure Reading where
  pm25 : ℚ
  pm10 : ℚ
  timestamp : ℕ
  deriving DecidableEq, Repr

/-- Embeds `read_sensor_data` (src/main.py lines 947-960): read 10 bytes; if
the frame has length 10 and header bytes `0xAA, 0xC0`, decode
`pm25 = (b2 + b3*256)/10.0`, `pm10 = (b4 + b5*256)/10.0`; otherwise the
function returns `(None, None)`, modelled as `none`. -/
def read_sensor_data (data : List ℕ) : Option (ℚ × ℚ) :=
  if data.length = 10 ∧ data.getD 0 0 = 0xAA ∧ data.getD 1 0 = 0xC0 then
    some (((data.getD 2 0 : ℚ) + (data.getD 3 0 : ℚ) * 256) / 10,
          ((data.getD 4 0 : ℚ) + (data.getD 5 0 : ℚ) * 256) / 10)
  else
    none

/-- Embeds `insert_reading` (lines 1198-1214): appends the row
`(pm25, pm10, timestamp)` to the `sensor_readings` table. -/
def insert_reading (db : List Reading) (pm25 pm10 : ℚ) (ts : ℕ) : List Reading :=
  db ++ [⟨pm25, pm10, ts⟩]

/-- The settings record: the six numeric columns of the `settings` table. -/
structure Settings where
  pm25_warning : ℚ
  pm25_critical : ℚ
  pm10_warning : ℚ
  pm10_critical : ℚ
  pm25_calibration : ℚ
  pm10_calibration : ℚ
  deriving DecidableEq, Repr

/-- Embeds one iteration of the body of `sensor_loop` (lines 962-974): the
decoded value is inserted as-is — the loop body is
`pm25, pm10 = read_sensor_data(ser); if pm25 is not None ...:
insert_reading(pm25, pm10)`.  The `settings` argument is present so that the
claim about calibration can be stated; the source loop never reads it. -/
def sensor_step (decoded : Option (ℚ × ℚ)) (_settings : Settings) (ts : ℕ)
    (db : List Reading) : List Reading :=
  match decoded with
  | some (pm25, pm10) => insert_reading db pm25 pm10 ts
  | none => db

/-- The documented default settings row inserted by `init_db` (lines 776-785). -/
def default_settings : Settings :=
  ⟨12, 35, 54, 154, 1, 1⟩

/-- Embeds the settings part of `init_db`: `SELECT COUNT(*) FROM settings`,
and if the count is 0, insert the default row `(12.0, 35.0, 54.0, 154.0,
1.0, 1.0)`. -/
def init_db_settings (hist : List Settings) : List Settings :=
  if hist.length = 0 then hist ++ [default_settings] else hist

/-- Embeds `get_settings` (lines 1022-1043):
`SELECT * FROM settings ORDER BY id DESC LIMIT 1`; returns the most recently
inserted row, or `None` when the table is empty. -/
def get_settings (hist : List Settings) : Option Settings :=
  hist.getLast?

/-- A settings-update request body: each of the six fields may be absent,
mirroring an arbitrary JSON object checked with `field in data`. -/
structure SettingsForm where
  pm25_warning : Option ℚ
  pm25_critical : Option ℚ
  pm10_warning : Option ℚ
  pm10_critical : Option ℚ
  pm25_calibration : Option ℚ
  pm10_calibration : Option ℚ
  deriving DecidableEq, Repr

/-- The validation failures of the `POST /api/settings` handler. -/
inductive ValidationError where
  | noData
  | missingFields
  deriving DecidableEq, Repr

/-- Embeds the POST branch of `api_settings` (lines 1476-1505) together with
`update_settings` (lines 1045-1068): reject when no body was provided; reject
with `Missing required fields` unless all six fields are present; otherwise
`INSERT` a new settings row.  On success the new history is returned. -/
def api_settings_post (data : Option SettingsForm) (hist : List Settings) :
    Except ValidationError (List Settings) :=
  match data with
  | none => .error .noData
  | some f =>
    if f.pm25_warning.isSome && f.pm25_critical.isSome && f.pm10_warning.isSome &&
       f.pm10_critical.isSome && f.pm25_calibration.isSome && f.pm10_calibration.isSome then
      .ok (hist ++ [⟨f.pm25_warning.getD 0, f.pm25_critical.getD 0,
                     f.pm10_warning.getD 0, f.pm10_critical.getD 0,
                     f.pm25_calibration.getD 0, f.pm10_calibration.getD 0⟩])
    else
      .error .missingFields

/-- The settings history as seen after a POST: a rejected request leaves the
stored history untouched (the handler returns before `update_settings`). -/
def settings_after (r : Except ValidationError (List Settings))
    (hist : List Settings) : List Settings :=
  match r with
  | .ok s => s
  | .error _ => hist

/-- The result shape of `query_history` (lines 819-850): three index-aligned
ascending-time arrays. -/
structure History where
  pm25_values : List ℚ
  pm10_values : List ℚ
  timestamps : List ℕ
  deriving DecidableEq, Repr

/-- Python's `max` over a non-empty list, as used by `get_highest_reading`:
the first element folded with binary max over the rest. -/
def listMax (x : ℚ) (xs : List ℚ) : ℚ :=
  xs.foldl max x

/-- Python's `list.index(v)`: the index of the first occurrence of `v`. -/
def listIndex (v : ℚ) : List ℚ → ℕ
  | [] => 0
  | x :: xs => if x = v then 0 else listIndex v xs + 1

/-- One entry of the `get_highest_reading` result: a value and the timestamp
of the sample where it occurred. -/
structure HighestEntry where
  value : ℚ
  timestamp : ℕ
  deriving DecidableEq, Repr

/-- The result of `get_highest_reading`: the pm25 and pm10 maxima, found
independently. -/
structure Highest where
  pm25 : HighestEntry
  pm10 : HighestEntry
  deriving DecidableEq, Repr

/-- Embeds `get_highest_reading` (lines 853-869): when `pm25_values` is
non-empty, take `max(pm25_values)` and `max(pm10_values)`, locate each with
`list.index` (first occurrence), and read the timestamps at those indices;
otherwise return `None`.  (`max` of an empty `pm10_values` list would raise
and be caught by the handler, which also returns `None`.) -/
def get_highest_reading (h : History) : Option Highest :=
  match h.pm25_values, h.pm10_values with
  | x :: xs, y :: ys =>
      let m25 := listMax x xs
      let m10 := listMax y ys
      some ⟨⟨m25, h.timestamps.getD (listIndex m25 (x :: xs)) 0⟩,
            ⟨m10, h.timestamps.getD (listIndex m10 (y :: ys)) 0⟩⟩
  | _, _ => none

/-- Embeds the moving-average construction of `find_last_spike` (lines
878-882): `pm25_avg[i] = sum(pm25_values[i:i+5]) / 5` for
`i in range(len - 5 + 1)` (an empty range when fewer than 5 samples exist;
`len + 1 - 5` in ℕ equals Python's `max(0, len - 5 + 1)`). -/
def pm25_avg (xs : List ℚ) : List ℚ :=
  (List.range (xs.length + 1 - 5)).map (fun i => ((xs.drop i).take 5).sum / 5)

/-- The spike record returned by `find_last_spike`. -/
structure Spike where
  timestamp : ℕ
  value : ℚ
  baseline : ℚ
  deriving DecidableEq, Repr

/-- Embeds the backward scan `for i in range(len(pm25_avg)-1, 0, -1)` of
`find_last_spike`: `spikeSearch avg pm ts f i` inspects indices `i, i-1, …, 1`
in that order and stops at the first index whose average exceeds the previous
average times the threshold factor. -/
def spikeSearch (avg pm : List ℚ) (ts : List ℕ) (f : ℚ) : ℕ → Option Spike
  | 0 => none
  | i + 1 =>
      if avg.getD (i + 1) 0 > avg.getD i 0 * f then
        some ⟨ts.getD (i + 1) 0, pm.getD (i + 1) 0, avg.getD i 0⟩
      else
        spikeSearch avg pm ts f i

/-- Embeds `find_last_spike` (lines 871-896): return `None` when the queried
history is empty; otherwise build the window-5 moving averages and scan them
backward from the newest index down to index 1 for
`avg[i] > avg[i-1] * threshold_factor`, reporting
`{timestamp: timestamps[i], value: pm25_values[i], baseline: avg[i-1]}`. -/
def find_last_spike (threshold_factor : ℚ) (h : History) : Option Spike :=
  match h.pm25_values with
  | [] => none
  | _ =>
      let avg := pm25_avg h.pm25_values
      spikeSearch avg h.pm25_values h.timestamps threshold_factor
        (avg.length - 1)

/-- A persistence-layer failure (an exception raised by the sqlite calls). -/
structure StorageError where
  code : ℕ
  deriving DecidableEq, Repr

/-- Embeds the error flow of `query_current` (lines 794-817): the body
re-raises any storage exception (`except ...: raise`), and maps an empty
result set to `None`.  The storage outcome is the argument. -/
def query_current_op (fetch : Except StorageError (Option Reading)) :
    Except StorageError (Option Reading) :=
  match fetch with
  | .error e => .error e
  | .ok r => .ok r

/-- Embeds the error flow of `query_history` (lines 819-850): the body
re-raises any storage exception (`except ...: raise`). -/
def query_history_op (fetch : Except StorageError History) :
    Except StorageError History :=
  match fetch with
  | .error e => .error e
  | .ok h => .ok h

/-- Embeds the error flow of `get_highest_reading` (lines 853-869): the
`except Exception` handler returns `None`, so a storage failure becomes
`.ok none` rather than a propagated error. -/
def get_highest_reading_op (fetch : Except StorageError History) :
    Except StorageError (Option Highest) :=
  match fetch with
  | .error _ => .ok none
  | .ok h => .ok (get_highest_reading h)

/-- Embeds the error flow of `find_last_spike` (lines 871-896): the
`except Exception` handler returns `None`, so a storage failure becomes
`.ok none` rather than a propagated error. -/
def find_last_spike_op (threshold_factor : ℚ)
    (fetch : Except StorageError History) :
    Except StorageError (Option Spike) :=
  match fetch with
  | .error _ => .ok none
  | .ok h => .ok (find_last_spike threshold_factor h)

/-- `leadsWith p q`: `p` is an initial run of `q` (character lists). -/
def leadsWith : List Char → List Char → Bool
  | [], _ => true
  | _ :: _, [] => false
  | p :: ps, q :: qs => p = q && leadsWith ps qs

/-- Python's substring test `p in q` on character lists: `p` occurs as a
contiguous run somewhere in `q`. -/
def containsRun (q p : List Char) : Bool :=
  match q with
  | [] => p.isEmpty
  | _ :: t => leadsWith p (q) || containsRun t p

/-- `any(phrase in query for phrase in phrases)`. -/
def phrasesAny (query : List Char) (phrases : List (List Char)) : Bool :=
  phrases.any (fun p => containsRun query p)

/-- The `current_phrases` table of `process_voice_command` (lines 1141-1143). -/
def current_phrases : List (List Char) :=
  ["what\x27s the current".data, "what is the current".data,
   "how\x27s the air".data, "how is the air".data,
   "current reading".data, "current air quality".data]

/-- The `highest_phrases` table of `process_voice_command` (lines 1146-1147). -/
def highest_phrases : List (List Char) :=
  ["highest reading".data, "maximum level".data, "peak value".data,
   "worst reading".data, "highest level".data, "maximum reading".data]

/-- The `spike_phrases` table of `process_voice_command` (lines 1150-1151). -/
def spike_phrases : List (List Char) :=
  ["when did it spike".data, "last spike".data, "recent spike".data,
   "when was the spike".data, "spike detection".data, "detect spike".data]

/-- The distinct responses `process_voice_command` can build (lines
1154-1185); the response strings are abstracted to tagged constructors
carrying the data interpolated into them.  `notUnderstood` is the fixed
fallback message of the final `else` branch. -/
inductive VoiceResponse where
  | currentReading (pm25 pm10 : ℚ)
  | currentUnavailable
  | highestReading (h : Highest)
  | highestUnavailable
  | spikeDetected (s : Spike)
  | noSpike
  | notUnderstood
  deriving DecidableEq, Repr

/-- Embeds `process_voice_command` (lines 1136-1185): lower-case the query,
then test the three phrase tables in order (current, highest, spike) with
an `if`/`elif` chain; inside each branch the analytics result (passed here
as an argument, since the Python calls `query_current()` etc.) selects the
data response or the corresponding apology; no table matching yields the
fixed fallback message. -/
def process_voice_command (cur : Option Reading) (hi : Option Highest)
    (sp : Option Spike) (query : List Char) : VoiceResponse :=
  let q := query.map Char.toLower
  if phrasesAny q current_phrases then
    match cur with
    | some c => .currentReading c.pm25 c.pm10
    | none => .currentUnavailable
  else if phrasesAny q highest_phrases then
    match hi with
    | some h => .highestReading h
    | none => .highestUnavailable
  else if phrasesAny q spike_phrases then
    match sp with
    | some s => .spikeDetected s
    | none => .noSpike
  else
    .notUnderstood

/-! ## Helper lemmas -/

/-- Folding `max` from `x` over `xs` bounds every element of `x :: xs`. -/
theorem le_listMax (x : ℚ) (xs : List ℚ) : ∀ v ∈ x :: xs, v ≤ listMax x xs := by
  induction xs generalizing x with
  | nil =>
    intro v hv
    simp only [List.mem_singleton] at hv
    simp [listMax, hv]
  | cons y ys ih =>
    intro v hv
    have h1 : listMax x (y :: ys) = listMax (max x y) ys := by
      simp [listMax]
    rw [h1]
    rcases List.mem_cons.mp hv with hvx | hv'
    · subst hvx
      exact le_trans (le_max_left v y)
        (ih (max v y) (max v y) (List.mem_cons_self _ _))
    · rcases List.mem_cons.mp hv' with hvy | hvm
      · subst hvy
        exact le_trans (le_max_right x v)
          (ih (max x v) (max x v) (List.mem_cons_self _ _))
      · exact ih (max x y) v (List.mem_cons_of_mem _ hvm)

/-- The fold of `max` is attained by an element of `x :: xs`. -/
theorem listMax_mem (x : ℚ) (xs : List ℚ) : listMax x xs ∈ x :: xs := by
  induction xs generalizing x with
  | nil => simp [listMax]
  | cons y ys ih =>
    have h1 : listMax x (y :: ys) = listMax (max x y) ys := by
      simp [listMax]
    rw [h1]
    rcases List.mem_cons.mp (ih (max x y)) with h | h
    · rw [h]
      rcases max_choice x y with hc | hc <;> rw [hc] <;> simp
    · simp [List.mem_cons_of_mem, h]

/-- `listIndex` finds the first occurrence: it is in range, reads back the
value, and every earlier position holds a different value. -/
theorem listIndex_spec (v : ℚ) (l : List ℚ) (hv : v ∈ l) :
    listIndex v l < l.length ∧ l.getD (listIndex v l) 0 = v ∧
      ∀ j < listIndex v l, l.getD j 0 ≠ v := by
  induction l with
  | nil => simp at hv
  | cons x xs ih =>
    by_cases hx : x = v
    · refine ⟨?_, ?_, ?_⟩ <;> simp [listIndex, hx]
    · have hv' : v ∈ xs := by
        rcases List.mem_cons.mp hv with h | h
        · exact absurd h.symm hx
        · exact h
      obtain ⟨ih1, ih2, ih3⟩ := ih hv'
      refine ⟨?_, ?_, ?_⟩
      · simp only [listIndex, if_neg hx, List.length_cons]
        omega
      · simpa [listIndex, hx] using ih2
      · intro j hj
        simp only [listIndex, if_neg hx] at hj
        cases j with
        | zero => simpa using hx
        | succ k =>
          rw [List.getD_cons_succ]
          exact ih3 k (by omega)

/-- If no index in `1..k` triggers the spike condition, the backward scan
finds nothing. -/
theorem spikeSearch_eq_none (avg pm : List ℚ) (ts : List ℕ) (f : ℚ) (k : ℕ)
    (h : ∀ i, 0 < i → i ≤ k → ¬(avg.getD i 0 > avg.getD (i - 1) 0 * f)) :
    spikeSearch avg pm ts f k = none := by
  induction k with
  | zero => rfl
  | succ n ih =>
    rw [spikeSearch]
    rw [if_neg (by simpa using h (n + 1) (by omega) (le_refl _))]
    exact ih fun i hi hik => h i hi (by omega)

/-- If index `i` triggers the spike condition and no larger index up to `k`
does, the backward scan starting at `k` stops exactly at `i`. -/
theorem spikeSearch_eq_some (avg pm : List ℚ) (ts : List ℕ) (f : ℚ)
    (i k : ℕ) (hi : 0 < i) (hik : i ≤ k)
    (hcond : avg.getD i 0 > avg.getD (i - 1) 0 * f)
    (hmax : ∀ j, i < j → j ≤ k → ¬(avg.getD j 0 > avg.getD (j - 1) 0 * f)) :
    spikeSearch avg pm ts f k =
      some ⟨ts.getD i 0, pm.getD i 0, avg.getD (i - 1) 0⟩ := by
  induction k with
  | zero => omega
  | succ n ih =>
    rw [spikeSearch]
    by_cases hc : avg.getD (n + 1) 0 > avg.getD n 0 * f
    · have hin : i = n + 1 := by
        by_contra hne
        exact hmax (n + 1) (by omega) (le_refl _) (by simpa using hc)
      subst hin
      rw [if_pos hc]
      simp
    · rw [if_neg hc]
      have hik' : i ≤ n := by
        rcases Nat.lt_or_ge i (n + 1) with h | h
        · omega
        · exfalso
          have hin : i = n + 1 := by omega
          subst hin
          exact hc (by simpa using hcond)
      exact ih hik' fun j hj hjk => hmax j hj (by omega)

/-- The moving-average list has one entry per window position. -/
theorem pm25_avg_length (xs : List ℚ) :
    (pm25_avg xs).length = xs.length + 1 - 5 := by
  simp [pm25_avg]

/-- Entry `i` of the moving-average list is the window sum divided by 5. -/
theorem pm25_avg_getD (xs : List ℚ) (i : ℕ) (hi : i < xs.length + 1 - 5) :
    (pm25_avg xs).getD i 0 = ((xs.drop i).take 5).sum / 5 := by
  have hi' : i < xs.length - 4 := by omega
  simp [pm25_avg, List.getD_eq_getElem?_getD, List.getElem?_map,
    List.getElem?_range, hi']

/-- The first five elements of a list of length at least 5, element by
element. -/
theorem take_five : ∀ (l : List ℚ), 5 ≤ l.length →
    l.take 5 = [l.getD 0 0, l.getD 1 0, l.getD 2 0, l.getD 3 0, l.getD 4 0]
  | a :: b :: c :: d :: e :: _, _ => by simp [List.getD]
  | [], h => by simp at h
  | [_], h => by simp at h
  | [_, _], h => by simp at h
  | [_, _, _], h => by simp at h
  | [_, _, _, _], h => by simp at h

/-- Reading inside a dropped list shifts the index. -/
theorem getD_drop (l : List ℚ) (i k : ℕ) :
    (l.drop i).getD k 0 = l.getD (i + k) 0 := by
  rw [List.getD_eq_getElem?_getD, List.getD_eq_getElem?_getD,
    List.getElem?_drop]

/-- The window-5 slice sum written out as five reads. -/
theorem slice_sum (xs : List ℚ) (i : ℕ) (h : i + 5 ≤ xs.length) :
    ((xs.drop i).take 5).sum =
      xs.getD i 0 + xs.getD (i + 1) 0 + xs.getD (i + 2) 0 +
      xs.getD (i + 3) 0 + xs.getD (i + 4) 0 := by
  have hlen : 5 ≤ (xs.drop i).length := by
    rw [List.length_drop]
    omega
  rw [take_five _ hlen]
  rw [getD_drop, getD_drop, getD_drop, getD_drop, getD_drop]
  simp
  ring

/-! ## Theorems -/

/-- C3: every full 10-byte read whose first two bytes are not `0xAA, 0xC0`
produces no sample — the decoder returns `none`, the frame is dropped, and
no value is appended for that read (totality holds by construction: the
embedding is a total function). -/
theorem desync_no_sample (data : List ℕ) (_hlen : data.length = 10)
    (hhdr : ¬(data.getD 0 0 = 0xAA ∧ data.getD 1 0 = 0xC0)) :
    read_sensor_data data = none := by
  unfold read_sensor_data
  rw [if_neg]
  rintro ⟨-, h0, h1⟩
  exact hhdr ⟨h0, h1⟩

/-- Witness for `desync_no_sample` at the misaligned frame
`[1,2,3,4,5,6,7,8,9,10]`. -/
theorem desync_no_sample_witness :
    read_sensor_data [1, 2, 3, 4, 5, 6, 7, 8, 9, 10] = none :=
  desync_no_sample [1, 2, 3, 4, 5, 6, 7, 8, 9, 10] (by decide) (by decide)

/-- C2 counterexample: on the frame `[0xAA,0xC0,44,1,80,2,0,0,0,0]` the code
decodes `pm10 = (80 + 2*256)/10 = 59.2`, not the claimed `64.0`. -/
theorem decode_example_counterexample :
    read_sensor_data [0xAA, 0xC0, 44, 1, 80, 2, 0, 0, 0, 0] =
      some (30, 296 / 5) ∧ (296 / 5 : ℚ) ≠ 64 := by
  constructor
  · norm_num [read_sensor_data]
  · norm_num

/-- C2 (amended): decoding is deterministic and follows
`pm25 = (b2 + b3*256)/10`, `pm10 = (b4 + b5*256)/10` on any 10-byte frame
with header `0xAA, 0xC0`; decoding `[0xAA,0xC0,44,1,80,2,_,_,_,_]` yields
`pm25 = 30.0` and `pm10 = 59.2` whatever the last four bytes are. -/
theorem decode_formula (data : List ℕ) (hlen : data.length = 10)
    (h0 : data.getD 0 0 = 0xAA) (h1 : data.getD 1 0 = 0xC0) :
    read_sensor_data data =
      some (((data.getD 2 0 : ℚ) + (data.getD 3 0 : ℚ) * 256) / 10,
            ((data.getD 4 0 : ℚ) + (data.getD 5 0 : ℚ) * 256) / 10) ∧
    ∀ w6 w7 w8 w9 : ℕ,
      read_sensor_data [0xAA, 0xC0, 44, 1, 80, 2, w6, w7, w8, w9] =
        some (30, 296 / 5) := by
  constructor
  · unfold read_sensor_data
    rw [if_pos ⟨hlen, h0, h1⟩]
  · intro w6 w7 w8 w9
    unfold read_sensor_data
    rw [if_pos (by constructor <;> simp)]
    norm_num

/-- Witness for `decode_formula` at `[0xAA,0xC0,0,1,0,2,9,9,9,9]`. -/
theorem decode_formula_witness :
    read_sensor_data [0xAA, 0xC0, 0, 1, 0, 2, 9, 9, 9, 9] =
      some (128 / 5, 256 / 5) := by
  have h := (decode_formula [0xAA, 0xC0, 0, 1, 0, 2, 9, 9, 9, 9]
    (by decide) (by decide) (by decide)).1
  rw [h]
  norm_num

/-- C1 counterexample: the valid frame `[0xAA,0xC0,100,0,200,0,...]` decodes
to the raw pair `(10, 20)`, and under settings with
`pm25_calibration = 2`, `pm10_calibration = 3` the loop body stores exactly
`(10, 20)` — not the calibrated `(10*2, 20*3) = (20, 60)` the claim
requires. -/
theorem calibration_not_applied_counterexample :
    sensor_step (read_sensor_data [0xAA, 0xC0, 100, 0, 200, 0, 0, 0, 0, 0])
        ⟨12, 35, 54, 154, 2, 3⟩ 0 [] = [⟨10, 20, 0⟩] ∧
    ([⟨10, 20, 0⟩] : List Reading) ≠ [⟨10 * 2, 20 * 3, 0⟩] := by
  constructor
  · norm_num [read_sensor_data, sensor_step, insert_reading]
  · norm_num [Reading.mk.injEq]

/-- C1 (amended): for every valid frame, the sample appended by the
acquisition-loop body is the raw decoded pair unchanged — `insert_reading`
receives `pm25Raw` and `pm10Raw` as-is — and the stored value does not depend
on the settings: calibration factors are never applied in this path. -/
theorem sensor_step_stores_raw (decoded : Option (ℚ × ℚ)) (r25 r10 : ℚ)
    (s s' : Settings) (ts : ℕ) (db : List Reading)
    (h : decoded = some (r25, r10)) :
    sensor_step decoded s ts db = insert_reading db r25 r10 ts ∧
    sensor_step decoded s ts db = sensor_step decoded s' ts db := by
  subst h
  exact ⟨rfl, rfl⟩

/-- Witness for `sensor_step_stores_raw` at the decoded frame
`[0xAA,0xC0,100,0,200,0,...]` with calibration factors `2` and `3`. -/
theorem sensor_step_stores_raw_witness :
    sensor_step (some (10, 20)) ⟨12, 35, 54, 154, 2, 3⟩ 7 [] =
      insert_reading [] 10 20 7 ∧
    sensor_step (some (10, 20)) ⟨12, 35, 54, 154, 2, 3⟩ 7 [] =
      sensor_step (some (10, 20)) default_settings 7 [] :=
  sensor_step_stores_raw (some (10, 20)) 10 20 ⟨12, 35, 54, 154, 2, 3⟩
    default_settings 7 [] rfl

/-- C9 counterexample: with no settings row in the store, `get_settings`
returns `None`; it neither returns the defaults nor persists anything. -/
theorem get_settings_empty_counterexample :
    get_settings ([] : List Settings) = none := rfl

/-- C9 (amended): `get_settings` returns `None` when no settings version
exists and persists nothing; the documented defaults
`(12.0, 35.0, 54.0, 154.0, 1.0, 1.0)` are inserted by database
initialization at startup when the settings table is empty (and only then),
after which `get_settings` returns them. -/
theorem default_settings_via_init (hist : List Settings) :
    get_settings ([] : List Settings) = none ∧
    init_db_settings [] = [default_settings] ∧
    get_settings (init_db_settings []) = some default_settings ∧
    default_settings = ⟨12, 35, 54, 154, 1, 1⟩ ∧
    (hist ≠ [] → init_db_settings hist = hist) := by
  refine ⟨rfl, rfl, rfl, rfl, fun hne => ?_⟩
  unfold init_db_settings
  rw [if_neg]
  simpa using hne

/-- Witness for `default_settings_via_init` at the one-row history
`[default_settings]`. -/
theorem default_settings_via_init_witness :
    init_db_settings [default_settings] = [default_settings] ∧
    get_settings (init_db_settings []) = some default_settings :=
  ⟨(default_settings_via_init [default_settings]).2.2.2.2 (by decide),
   (default_settings_via_init [default_settings]).2.2.1⟩

/-- C4: `find_last_spike` computes `avg[i]` as the mean of `pm25[i..i+4]`
(last conjunct), scans `i` from the newest average index down to 1 and
returns, at the first `i` with `avg[i] > avg[i-1] * threshold_factor`, the
record `{timestamp: timestamps[i], value: pm25[i], baseline: avg[i-1]}`;
it returns `none` when fewer than 5 samples exist or no such `i` is found. -/
theorem spike_scan_semantics (h : History) (f : ℚ) :
    (h.pm25_values.length < 5 → find_last_spike f h = none) ∧
    (∀ i, 0 < i → i < h.pm25_values.length + 1 - 5 →
      (pm25_avg h.pm25_values).getD i 0 >
        (pm25_avg h.pm25_values).getD (i - 1) 0 * f →
      (∀ j, i < j → j < h.pm25_values.length + 1 - 5 →
        ¬((pm25_avg h.pm25_values).getD j 0 >
          (pm25_avg h.pm25_values).getD (j - 1) 0 * f)) →
      find_last_spike f h =
        some ⟨h.timestamps.getD i 0, h.pm25_values.getD i 0,
              (pm25_avg h.pm25_values).getD (i - 1) 0⟩) ∧
    ((∀ i, 0 < i → i < h.pm25_values.length + 1 - 5 →
        ¬((pm25_avg h.pm25_values).getD i 0 >
          (pm25_avg h.pm25_values).getD (i - 1) 0 * f)) →
      find_last_spike f h = none) ∧
    (∀ i, i + 5 ≤ h.pm25_values.length →
      (pm25_avg h.pm25_values).getD i 0 =
        (h.pm25_values.getD i 0 + h.pm25_values.getD (i + 1) 0 +
         h.pm25_values.getD (i + 2) 0 + h.pm25_values.getD (i + 3) 0 +
         h.pm25_values.getD (i + 4) 0) / 5) := by
  obtain ⟨pmv, pm10v, tsv⟩ := h
  refine ⟨?_, ?_, ?_, ?_⟩
  · intro hlen
    have hlen' : pmv.length < 5 := hlen
    cases pmv with
    | nil => rfl
    | cons a t =>
      show spikeSearch _ _ _ _ ((pm25_avg (a :: t)).length - 1) = none
      have hz : (pm25_avg (a :: t)).length = 0 := by
        rw [pm25_avg_length]
        omega
      rw [hz]
      rfl
  · intro i hi hilt hcond hmax
    have hilt' : i < pmv.length + 1 - 5 := hilt
    cases pmv with
    | nil =>
      exfalso
      simp only [List.length_nil] at hilt'
      omega
    | cons a t =>
      show spikeSearch _ _ _ _ ((pm25_avg (a :: t)).length - 1) = _
      rw [pm25_avg_length]
      refine spikeSearch_eq_some _ _ _ _ i _ hi (by omega) hcond ?_
      intro j hj hjk
      exact hmax j hj (show j < (a :: t).length + 1 - 5 by omega)
  · intro hall
    cases pmv with
    | nil => rfl
    | cons a t =>
      show spikeSearch _ _ _ _ ((pm25_avg (a :: t)).length - 1) = none
      rw [pm25_avg_length]
      refine spikeSearch_eq_none _ _ _ _ _ ?_
      intro i hi hik
      exact hall i hi (show i < (a :: t).length + 1 - 5 by omega)
  · intro i hile
    have hile' : i + 5 ≤ pmv.length := hile
    rw [pm25_avg_getD _ _ (show i < pmv.length + 1 - 5 by omega),
      slice_sum _ _ hile']

/-- Witness for `spike_scan_semantics`: for the six pm25 samples
`[10,10,10,10,10,50]` with threshold factor 1.5 the averages are `[10, 18]`,
`18 > 10 * 1.5`, and the spike reported is at index 1 with value 10 and
baseline 10. -/
theorem spike_scan_semantics_witness :
    find_last_spike (3 / 2)
        ⟨[10, 10, 10, 10, 10, 50], [0, 0, 0, 0, 0, 0],
         [100, 101, 102, 103, 104, 105]⟩ =
      some ⟨101, 10, 10⟩ := by
  have h := (spike_scan_semantics
    ⟨[10, 10, 10, 10, 10, 50], [0, 0, 0, 0, 0, 0],
     [100, 101, 102, 103, 104, 105]⟩ (3 / 2)).2.1 1
    (by omega) (by norm_num)
    (by norm_num [pm25_avg, List.getD])
    (by intro j hj1 hj2; simp at hj2; omega)
  rw [h]
  norm_num [pm25_avg, List.getD]

/-- C5: `get_highest_reading` returns `none` on an empty window; on a
non-empty window it returns the maximum pm25 value and the maximum pm10
value, computed independently, each paired with the timestamp of the
earliest sample attaining that maximum. -/
theorem highest_max_semantics (h : History)
    (h1 : h.pm25_values.length = h.timestamps.length)
    (h2 : h.pm10_values.length = h.timestamps.length) :
    (h.pm25_values = [] → get_highest_reading h = none) ∧
    (h.pm25_values ≠ [] → ∃ r, get_highest_reading h = some r ∧
      ((∀ v ∈ h.pm25_values, v ≤ r.pm25.value) ∧
        r.pm25.value ∈ h.pm25_values) ∧
      (∃ i, i < h.pm25_values.length ∧
        h.pm25_values.getD i 0 = r.pm25.value ∧
        h.timestamps.getD i 0 = r.pm25.timestamp ∧
        ∀ j < i, h.pm25_values.getD j 0 ≠ r.pm25.value) ∧
      ((∀ v ∈ h.pm10_values, v ≤ r.pm10.value) ∧
        r.pm10.value ∈ h.pm10_values) ∧
      (∃ i, i < h.pm10_values.length ∧
        h.pm10_values.getD i 0 = r.pm10.value ∧
        h.timestamps.getD i 0 = r.pm10.timestamp ∧
        ∀ j < i, h.pm10_values.getD j 0 ≠ r.pm10.value)) := by
  obtain ⟨pmv, pm10v, tsv⟩ := h
  constructor
  · intro he
    subst he
    rfl
  · intro hne
    cases pmv with
    | nil => exact absurd rfl hne
    | cons x xs =>
      cases pm10v with
      | nil =>
        exfalso
        simp at h1 h2
        omega
      | cons y ys =>
        refine ⟨_, rfl, ?_, ?_, ?_, ?_⟩
        · exact ⟨le_listMax x xs, listMax_mem x xs⟩
        · obtain ⟨ha, hb, hc⟩ := listIndex_spec (listMax x xs) (x :: xs)
            (listMax_mem x xs)
          exact ⟨listIndex (listMax x xs) (x :: xs), ha, hb, rfl, hc⟩
        · exact ⟨le_listMax y ys, listMax_mem y ys⟩
        · obtain ⟨ha, hb, hc⟩ := listIndex_spec (listMax y ys) (y :: ys)
            (listMax_mem y ys)
          exact ⟨listIndex (listMax y ys) (y :: ys), ha, hb, rfl, hc⟩

/-- Witness for `highest_max_semantics` at the four-sample history
`pm25 = [3,7,7,2]`, `pm10 = [9,1,9,0]`, timestamps `[10,11,12,13]`: the
result is pm25 max 7 first attained at timestamp 11 and pm10 max 9 first
attained at timestamp 10. -/
theorem highest_max_semantics_witness :
    get_highest_reading ⟨[3, 7, 7, 2], [9, 1, 9, 0], [10, 11, 12, 13]⟩ =
      some ⟨⟨7, 11⟩, ⟨9, 10⟩⟩ := by
  obtain ⟨r, hr, -, -, -, -⟩ :=
    (highest_max_semantics ⟨[3, 7, 7, 2], [9, 1, 9, 0], [10, 11, 12, 13]⟩
      (by simp) (by simp)).2 (by simp)
  rw [hr]
  rw [show r = ⟨⟨7, 11⟩, ⟨9, 10⟩⟩ from by
    have : some r = some (⟨⟨7, 11⟩, ⟨9, 10⟩⟩ : Highest) := by
      rw [← hr]
      norm_num [get_highest_reading, listMax, listIndex, List.getD]
    exact Option.some_injective _ this]

/-- C6 counterexample: a persistence failure reaching `get_highest_reading`
or `find_last_spike` is converted by their `except` handlers into a `None`
result (`.ok none`), not propagated as a `StorageError`. -/
theorem storage_error_swallowed_counterexample :
    get_highest_reading_op (.error ⟨7⟩) = .ok none ∧
    find_last_spike_op (3 / 2) (.error ⟨7⟩) = .ok none ∧
    get_highest_reading_op (.error ⟨7⟩) ≠ .error ⟨7⟩ := by
  refine ⟨rfl, rfl, ?_⟩
  exact fun hco => Except.noConfusion hco

/-- C6 (amended): `query_current` and `query_history` propagate a
persistence-layer failure to their caller as a `StorageError`, while
`get_highest_reading` and `find_last_spike` catch the failure and return
`None` instead; empty data is returned as `None`/empty by all four without
raising. -/
theorem storage_error_policy :
    (∀ e : StorageError, query_current_op (.error e) = .error e) ∧
    (∀ e : StorageError, query_history_op (.error e) = .error e) ∧
    (∀ e : StorageError, get_highest_reading_op (.error e) = .ok none) ∧
    (∀ (e : StorageError) (f : ℚ),
      find_last_spike_op f (.error e) = .ok none) ∧
    query_current_op (.ok none) = .ok none ∧
    (∀ h : History, h.pm25_values = [] →
      get_highest_reading_op (.ok h) = .ok none) ∧
    (∀ (f : ℚ) (h : History), h.pm25_values = [] →
      find_last_spike_op f (.ok h) = .ok none) ∧
    (∀ h : History, query_history_op (.ok h) = .ok h) := by
  refine ⟨fun e => rfl, fun e => rfl, fun e => rfl, fun e f => rfl, rfl,
    ?_, ?_, fun h => rfl⟩
  · intro h he
    obtain ⟨pmv, p10, ts⟩ := h
    have hp : pmv = [] := he
    subst hp
    cases p10 <;> rfl
  · intro f h he
    obtain ⟨pmv, p10, ts⟩ := h
    have hp : pmv = [] := he
    subst hp
    rfl

/-- Witness for `storage_error_policy` at the empty history. -/
theorem storage_error_policy_witness :
    get_highest_reading_op (.ok ⟨[], [], []⟩) = .ok none ∧
    find_last_spike_op (3 / 2) (.ok ⟨[], [], []⟩) = .ok none :=
  ⟨storage_error_policy.2.2.2.2.2.1 ⟨[], [], []⟩ rfl,
   storage_error_policy.2.2.2.2.2.2.1 (3 / 2) ⟨[], [], []⟩ rfl⟩

/-- C7: an `UpdateSettings` request missing any of the six required fields
is rejected with a validation error and performs no write: the stored
history is unchanged, so a subsequent `GetSettings` returns the same
settings as before the failed update. -/
theorem settings_missing_field_rejected (f : SettingsForm)
    (hist : List Settings)
    (h : f.pm25_warning = none ∨ f.pm25_critical = none ∨
         f.pm10_warning = none ∨ f.pm10_critical = none ∨
         f.pm25_calibration = none ∨ f.pm10_calibration = none) :
    api_settings_post (some f) hist = .error .missingFields ∧
    settings_after (api_settings_post (some f) hist) hist = hist ∧
    get_settings (settings_after (api_settings_post (some f) hist) hist) =
      get_settings hist := by
  have hmain : api_settings_post (some f) hist = .error .missingFields := by
    rcases h with h | h | h | h | h | h <;> simp [api_settings_post, h]
  refine ⟨hmain, ?_, ?_⟩ <;> rw [hmain] <;> rfl

/-- Witness for `settings_missing_field_rejected`: a request missing
`pm25_warning` against the one-row default history. -/
theorem settings_missing_field_rejected_witness :
    api_settings_post (some ⟨none, some 2, some 3, some 4, some 5, some 6⟩)
        [default_settings] = .error .missingFields ∧
    settings_after
        (api_settings_post (some ⟨none, some 2, some 3, some 4, some 5, some 6⟩)
          [default_settings]) [default_settings] = [default_settings] ∧
    get_settings (settings_after
        (api_settings_post (some ⟨none, some 2, some 3, some 4, some 5, some 6⟩)
          [default_settings]) [default_settings]) =
      get_settings [default_settings] :=
  settings_missing_field_rejected ⟨none, some 2, some 3, some 4, some 5, some 6⟩
    [default_settings] (Or.inl rfl)

/-- C8 counterexample: an `UpdateSettings` request with
`pm25_calibration = 0` and all six fields present is accepted — the handler
only checks field presence — the row is persisted and becomes current,
contradicting the claimed synchronous rejection. -/
theorem calibration_zero_accepted_counterexample :
    api_settings_post
        (some ⟨some 12, some 35, some 54, some 154, some 0, some 1⟩)
        [default_settings] =
      .ok [default_settings, ⟨12, 35, 54, 154, 0, 1⟩] ∧
    get_settings [default_settings, ⟨12, 35, 54, 154, 0, 1⟩] =
      some ⟨12, 35, 54, 154, 0, 1⟩ ∧
    (⟨12, 35, 54, 154, 0, 1⟩ : Settings).pm25_calibration ≤ 0 := by
  refine ⟨?_, ?_, ?_⟩
  · simp [api_settings_post]
  · simp [get_settings]
  · simp

/-- C8 (amended): `UpdateSettings` performs no positivity validation of the
calibration factors: a request with all six fields present is accepted even
when `pm25_calibration` or `pm10_calibration` is zero or negative; the new
settings row is persisted and becomes the current settings. -/
theorem calibration_not_validated (hist : List Settings) (a b c d e g : ℚ)
    (_hneg : e ≤ 0 ∨ g ≤ 0) :
    api_settings_post
        (some ⟨some a, some b, some c, some d, some e, some g⟩) hist =
      .ok (hist ++ [⟨a, b, c, d, e, g⟩]) ∧
    get_settings (settings_after
        (api_settings_post
          (some ⟨some a, some b, some c, some d, some e, some g⟩) hist)
        hist) = some ⟨a, b, c, d, e, g⟩ := by
  have hmain : api_settings_post
      (some ⟨some a, some b, some c, some d, some e, some g⟩) hist =
      .ok (hist ++ [⟨a, b, c, d, e, g⟩]) := by
    simp [api_settings_post]
  refine ⟨hmain, ?_⟩
  rw [hmain]
  simp [settings_after, get_settings]

/-- Witness for `calibration_not_validated`: updating the default history
with a zero `pm25_calibration`. -/
theorem calibration_not_validated_witness :
    api_settings_post
        (some ⟨some 12, some 35, some 54, some 154, some 0, some 3⟩)
        [default_settings] =
      .ok ([default_settings] ++ [⟨12, 35, 54, 154, 0, 3⟩]) ∧
    get_settings (settings_after
        (api_settings_post
          (some ⟨some 12, some 35, some 54, some 154, some 0, some 3⟩)
          [default_settings])
        [default_settings]) = some ⟨12, 35, 54, 154, 0, 3⟩ :=
  calibration_not_validated [default_settings] 12 35 54 154 0 3
    (Or.inl (le_refl 0))

/-- C10: the voice-command processor is a total function of the query (by
construction of the embedding, it always yields a response and never
raises); a query matching none of the three phrase tables yields the fixed
fallback response, and the tables are consulted in the fixed precedence
order current, then highest, then spike. -/
theorem voice_command_policy (cur : Option Reading) (hi : Option Highest)
    (sp : Option Spike) (query : List Char) :
    (phrasesAny (query.map Char.toLower) current_phrases = true →
      process_voice_command cur hi sp query =
        (match cur with
         | some c => .currentReading c.pm25 c.pm10
         | none => .currentUnavailable)) ∧
    (phrasesAny (query.map Char.toLower) current_phrases = false →
      phrasesAny (query.map Char.toLower) highest_phrases = true →
      process_voice_command cur hi sp query =
        (match hi with
         | some hh => .highestReading hh
         | none => .highestUnavailable)) ∧
    (phrasesAny (query.map Char.toLower) current_phrases = false →
      phrasesAny (query.map Char.toLower) highest_phrases = false →
      phrasesAny (query.map Char.toLower) spike_phrases = true →
      process_voice_command cur hi sp query =
        (match sp with
         | some ss => .spikeDetected ss
         | none => .noSpike)) ∧
    (phrasesAny (query.map Char.toLower) current_phrases = false →
      phrasesAny (query.map Char.toLower) highest_phrases = false →
      phrasesAny (query.map Char.toLower) spike_phrases = false →
      process_voice_command cur hi sp query = .notUnderstood) := by
  refine ⟨?_, ?_, ?_, ?_⟩
  · intro hc
    simp [process_voice_command, hc]
  · intro hc hh
    simp [process_voice_command, hc, hh]
  · intro hc hh hs
    simp [process_voice_command, hc, hh, hs]
  · intro hc hh hs
    simp [process_voice_command, hc, hh, hs]

/-- Witness for `voice_command_policy`: a query matching all three phrase
tables (`current reading`, `highest reading`, `last spike`) is answered by
the current branch. -/
theorem voice_command_policy_witness :
    process_voice_command (some ⟨5, 6, 3⟩) (some ⟨⟨1, 2⟩, ⟨3, 4⟩⟩) none
        "puff current reading and highest reading and last spike".data =
      VoiceResponse.currentReading 5 6 := by
  have h := (voice_command_policy (some ⟨5, 6, 3⟩) (some ⟨⟨1, 2⟩, ⟨3, 4⟩⟩) none
    "puff current reading and highest reading and last spike".data).1
    (by decide)
  simpa using h

end Puff
